import Mathlib

/-!
Verification of `clms_hrwsi_awic_downloader.py` (EEA CLMS HR-WSI AWIC API
client).  The Python source is shallowly embedded below: JSON values are the
inductive `JVal` (the value kinds these endpoints exchange: null, integers,
strings, arrays, objects), fallible code returns `Except`/`Option`, process
termination (`sys.exit` or an uncaught exception) is an explicit result
constructor, and the single HTTP call of each request function is a parameter
describing the outcome of that call.  CPython `strptime` for the two fixed
formats used by the program is embedded as a backtracking matcher that follows
the `_strptime` regular expressions for `%Y`, `%m`, `%d`, `%H`, `%M`, `%S`
(alternatives tried in source order, whole-string consumption checked after
the match, calendar validation by the `datetime` constructor afterwards).
-/

/-- A JSON value as decoded by `response.json()` and passed around the
program.  Booleans and non-integer numbers are outside the model. -/
inductive JVal
  | jNull
  | jInt (n : Int)
  | jStr (s : String)
  | jArr (xs : List JVal)
  | jObj (fields : List (String × JVal))

/-- First-match lookup in an object's field list (models `dict.get`). -/
def jLookup : List (String × JVal) → String → Option JVal
  | [], _ => none
  | (k, v) :: rest, key => if k = key then some v else jLookup rest key

/-- Python truthiness of a JSON-decoded value (`if raw_awic:` / `if geom:`). -/
def jTruthy : JVal → Bool
  | JVal.jNull => false
  | JVal.jInt n => n != 0
  | JVal.jStr s => s != ""
  | JVal.jArr xs => !xs.isEmpty
  | JVal.jObj fs => !fs.isEmpty

/-- A single-quote character, used by the Python `repr` of strings. -/
def pyQuote : String := String.singleton (Char.ofNat 39)

mutual

/-- Python `repr` of a JSON-decoded value (used by `str` on containers). -/
def jReprPy : JVal → String
  | JVal.jNull => "None"
  | JVal.jInt n => toString n
  | JVal.jStr s => pyQuote ++ s ++ pyQuote
  | JVal.jArr xs => "[" ++ jReprList xs ++ "]"
  | JVal.jObj fs => "\x7b" ++ jReprFields fs ++ "\x7d"

/-- Comma-separated `repr` of list elements. -/
def jReprList : List JVal → String
  | [] => ""
  | [x] => jReprPy x
  | x :: y :: xs => jReprPy x ++ ", " ++ jReprList (y :: xs)

/-- Comma-separated `repr` of dict entries. -/
def jReprFields : List (String × JVal) → String
  | [] => ""
  | [(k, v)] => pyQuote ++ k ++ pyQuote ++ ": " ++ jReprPy v
  | (k, v) :: y :: xs =>
    pyQuote ++ k ++ pyQuote ++ ": " ++ jReprPy v ++ ", " ++ jReprFields (y :: xs)

end

/-- Python `str()` of a JSON-decoded value, as interpolated by an f-string. -/
def pyStrOf : JVal → String
  | JVal.jStr s => s
  | JVal.jInt n => toString n
  | JVal.jNull => "None"
  | j => jReprPy j

/-- The decimal digit character for `d % 10`-sized arguments. -/
def digitChar (d : Nat) : Char := Char.ofNat (48 + d)

/-- Value of a decimal digit character, `none` on any other character
(the `\d` character class of the `_strptime` regular expressions). -/
def dval? (c : Char) : Option Nat :=
  if 48 ≤ c.toNat ∧ c.toNat ≤ 57 then some (c.toNat - 48) else none

/-- Two-digit zero-padded decimal form of `n % 100` (strftime `%m` etc.). -/
def pad2 (n : Nat) : List Char := [digitChar (n / 10 % 10), digitChar (n % 10)]

/-- Four-digit zero-padded decimal form (strftime `%Y`). -/
def pad4 (n : Nat) : List Char :=
  [digitChar (n / 1000 % 10), digitChar (n / 100 % 10),
   digitChar (n / 10 % 10), digitChar (n % 10)]

/-- Five-digit zero-padded decimal form (the digits of `f"{n:06d}"` for a
negative `n`, whose sign occupies one of the six positions). -/
def pad5 (n : Nat) : List Char :=
  [digitChar (n / 10000 % 10), digitChar (n / 1000 % 10),
   digitChar (n / 100 % 10), digitChar (n / 10 % 10), digitChar (n % 10)]

/-- Six-digit zero-padded decimal form. -/
def pad6 (n : Nat) : List Char :=
  [digitChar (n / 100000 % 10), digitChar (n / 10000 % 10),
   digitChar (n / 1000 % 10), digitChar (n / 100 % 10),
   digitChar (n / 10 % 10), digitChar (n % 10)]

/-- Python `f"{n:06d}"` on an integer: zero-pad the decimal form to a total
width of six characters, the sign included. -/
def py06d (n : Int) : String :=
  if n < 0 then
    "-" ++ (if n.natAbs < 100000 then String.mk (pad5 n.natAbs)
            else toString n.natAbs)
  else if n.natAbs < 1000000 then String.mk (pad6 n.natAbs)
  else toString n.natAbs

/-- Try each element in order, returning the first for which `f` succeeds
(the backtracking of a regular-expression alternation). -/
def firstSome : List α → (α → Option β) → Option β
  | [], _ => none
  | x :: xs, f => match f x with
    | some b => some b
    | none => firstSome xs f

/-- `%Y` of `_strptime`: exactly four digit characters. -/
def parse4Digits : List Char → Option (Nat × List Char)
  | a :: b :: c :: d :: rest =>
    match dval? a, dval? b, dval? c, dval? d with
    | some va, some vb, some vc, some vd =>
      some (1000 * va + 100 * vb + 10 * vc + vd, rest)
    | _, _, _, _ => none
  | _ => none

/-- `%m` of `_strptime`, alternatives in source order: `1[0-2]|0[1-9]|[1-9]`;
every alternative match together with the remaining input. -/
def monthAlts (cs : List Char) : List (Nat × List Char) :=
  (match cs with
   | a :: b :: rest =>
     match dval? a, dval? b with
     | some 1, some vb => if vb ≤ 2 then [(10 + vb, rest)] else []
     | _, _ => []
   | _ => []) ++
  (match cs with
   | a :: b :: rest =>
     match dval? a, dval? b with
     | some 0, some vb => if 1 ≤ vb then [(vb, rest)] else []
     | _, _ => []
   | _ => []) ++
  (match cs with
   | a :: rest =>
     match dval? a with
     | some va => if 1 ≤ va then [(va, rest)] else []
     | none => []
   | _ => [])

/-- `%d` of `_strptime`: `3[01]|[12]\d|0[1-9]|[1-9]`. -/
def dayAlts (cs : List Char) : List (Nat × List Char) :=
  (match cs with
   | a :: b :: rest =>
     match dval? a, dval? b with
     | some 3, some vb => if vb ≤ 1 then [(30 + vb, rest)] else []
     | _, _ => []
   | _ => []) ++
  (match cs with
   | a :: b :: rest =>
     match dval? a, dval? b with
     | some va, some vb =>
       if 1 ≤ va ∧ va ≤ 2 then [(10 * va + vb, rest)] else []
     | _, _ => []
   | _ => []) ++
  (match cs with
   | a :: b :: rest =>
     match dval? a, dval? b with
     | some 0, some vb => if 1 ≤ vb then [(vb, rest)] else []
     | _, _ => []
   | _ => []) ++
  (match cs with
   | a :: rest =>
     match dval? a with
     | some va => if 1 ≤ va then [(va, rest)] else []
     | none => []
   | _ => [])

/-- `%H` of `_strptime`: `2[0-3]|[0-1]\d|\d`. -/
def hourAlts (cs : List Char) : List (Nat × List Char) :=
  (match cs with
   | a :: b :: rest =>
     match dval? a, dval? b with
     | some 2, some vb => if vb ≤ 3 then [(20 + vb, rest)] else []
     | _, _ => []
   | _ => []) ++
  (match cs with
   | a :: b :: rest =>
     match dval? a, dval? b with
     | some va, some vb => if va ≤ 1 then [(10 * va + vb, rest)] else []
     | _, _ => []
   | _ => []) ++
  (match cs with
   | a :: rest =>
     match dval? a with
     | some va => [(va, rest)]
     | none => []
   | _ => [])

/-- `%M` of `_strptime`: `[0-5]\d|\d`. -/
def minuteAlts (cs : List Char) : List (Nat × List Char) :=
  (match cs with
   | a :: b :: rest =>
     match dval? a, dval? b with
     | some va, some vb => if va ≤ 5 then [(10 * va + vb, rest)] else []
     | _, _ => []
   | _ => []) ++
  (match cs with
   | a :: rest =>
     match dval? a with
     | some va => [(va, rest)]
     | none => []
   | _ => [])

/-- `%S` of `_strptime`: `6[0-1]|[0-5]\d|\d` (leap seconds pass the regular
expression and are rejected later by the `datetime` constructor). -/
def secondAlts (cs : List Char) : List (Nat × List Char) :=
  (match cs with
   | a :: b :: rest =>
     match dval? a, dval? b with
     | some 6, some vb => if vb ≤ 1 then [(60 + vb, rest)] else []
     | _, _ => []
   | _ => []) ++
  (match cs with
   | a :: b :: rest =>
     match dval? a, dval? b with
     | some va, some vb => if va ≤ 5 then [(10 * va + vb, rest)] else []
     | _, _ => []
   | _ => []) ++
  (match cs with
   | a :: rest =>
     match dval? a with
     | some va => [(va, rest)]
     | none => []
   | _ => [])

/-- Leftmost match of the `"%Y%m%dT%H%M%S"` pattern, with the regular
expression's backtracking across alternatives. -/
def matchYmdTHMS (cs : List Char) :
    Option ((Nat × Nat × Nat × Nat × Nat × Nat) × List Char) :=
  match parse4Digits cs with
  | none => none
  | some (y, cs1) =>
    firstSome (monthAlts cs1) fun (m, cs2) =>
    firstSome (dayAlts cs2) fun (d, cs3) =>
    match cs3 with
    | 'T' :: cs4 =>
      firstSome (hourAlts cs4) fun (h, cs5) =>
      firstSome (minuteAlts cs5) fun (mi, cs6) =>
      firstSome (secondAlts cs6) fun (sec, cs7) =>
      some ((y, m, d, h, mi, sec), cs7)
    | _ => none

/-- Leftmost match of the `"%Y-%m-%d"` pattern. -/
def matchYdashMdashD (cs : List Char) :
    Option ((Nat × Nat × Nat) × List Char) :=
  match parse4Digits cs with
  | none => none
  | some (y, cs1) =>
    match cs1 with
    | '-' :: cs2 =>
      firstSome (monthAlts cs2) fun (m, cs3) =>
      match cs3 with
      | '-' :: cs4 =>
        firstSome (dayAlts cs4) fun (d, cs5) =>
        some ((y, m, d), cs5)
      | _ => none
    | _ => none

/-- Gregorian leap-year rule used by `datetime`. -/
def isLeapYear (y : Nat) : Bool :=
  y % 4 == 0 && (y % 100 != 0 || y % 400 == 0)

/-- Days in a month, as validated by the `datetime` constructor. -/
def daysInMonth (y m : Nat) : Nat :=
  if m = 2 then (if isLeapYear y then 29 else 28)
  else if m = 4 ∨ m = 6 ∨ m = 9 ∨ m = 11 then 30
  else 31

/-- `datetime.datetime.strptime(s, "%Y%m%dT%H%M%S")`: leftmost regular
expression match, then the whole string must have been consumed, then the
`datetime` constructor validates the calendar date and the second. -/
def strptimeYmdTHMS (s : String) : Option (Nat × Nat × Nat × Nat × Nat × Nat) :=
  match matchYmdTHMS s.data with
  | some ((y, m, d, h, mi, sec), rest) =>
    if rest = [] ∧ 1 ≤ y ∧ d ≤ daysInMonth y m ∧ sec ≤ 59 then
      some (y, m, d, h, mi, sec)
    else none
  | none => none

/-- `strftime('%Y-%m-%dT%H:%M:%S')` of the parsed components. -/
def strftimeIso (y m d h mi sec : Nat) : String :=
  String.mk (pad4 y ++ '-' :: pad2 m ++ '-' :: pad2 d ++
             'T' :: pad2 h ++ ':' :: pad2 mi ++ ':' :: pad2 sec)

/-- `validate_Rfc3339`: `strptime(date_text, '%Y-%m-%d')` returns the input
on success; any exception becomes the fixed `ValueError`. -/
def validate_Rfc3339 (date_text : String) : Except String String :=
  match matchYdashMdashD date_text.data with
  | some ((y, m, d), rest) =>
    if rest = [] ∧ 1 ≤ y ∧ d ≤ daysInMonth y m then Except.ok date_text
    else Except.error "Incorrect date format, should be YYYY-MM-DD"
  | none => Except.error "Incorrect date format, should be YYYY-MM-DD"

/-- `f"{awic[2]:06d}"` on one JSON value: only an integer accepts the `d`
format code; a string raises `ValueError`, other types raise `TypeError`. -/
def fmt06d : JVal → Except String String
  | JVal.jInt n => Except.ok (py06d n)
  | JVal.jStr _ => Except.error "ValueError"
  | _ => Except.error "TypeError"

/-- Lines 67–73 of the source: build `f"{awic[1]}T{time_str}"`, parse it with
`strptime`, and render with `strftime`; `ValueError`/`IndexError` are caught
and re-raised as the fixed `ValueError`, a `TypeError` escapes unchanged. -/
def awicTimestamp (awic : List JVal) : Except String String :=
  match awic.get? 2 with
  | none => Except.error "ValueError: Invalid date/time in AWIC product"
  | some v2 =>
    match fmt06d v2 with
    | Except.error "TypeError" => Except.error "TypeError"
    | Except.error _ => Except.error "ValueError: Invalid date/time in AWIC product"
    | Except.ok time_str =>
      match awic.get? 1 with
      | none => Except.error "ValueError: Invalid date/time in AWIC product"
      | some v1 =>
        match strptimeYmdTHMS (pyStrOf v1 ++ "T" ++ time_str) with
        | none => Except.error "ValueError: Invalid date/time in AWIC product"
        | some (y, m, d, h, mi, sec) => Except.ok (strftimeIso y m d h mi sec)

/-- `mission_labels.get(mission_code, "")`: the fixed code→label dictionary;
an unhashable key (a decoded array or object) raises `TypeError` inside
`dict.get`, every other non-matching key yields the default. -/
def missionLabelsGet : Option JVal → Except String String
  | some (JVal.jArr _) => Except.error "TypeError"
  | some (JVal.jObj _) => Except.error "TypeError"
  | some (JVal.jInt n) =>
    if n = 0 then Except.ok "Sentinel-1 Sentinel-2"
    else if n = 1 then Except.ok "Sentinel-1"
    else if n = 2 then Except.ok "Sentinel-2"
    else Except.ok ""
  | _ => Except.ok ""

/-- `format_awic_product(awic, index)`: derived timestamp, mission label from
the table (`awic[12]` when present, else `None`), then
`[index + 1, awic[0], timestamp] + awic[3:12] + [mission]`. -/
def format_awic_product (awic : List JVal) (index : Nat) :
    Except String (List JVal) :=
  match awicTimestamp awic with
  | Except.error e => Except.error e
  | Except.ok ts =>
    match missionLabelsGet (awic.get? 12) with
    | Except.error e => Except.error e
    | Except.ok mission =>
      match awic.get? 0 with
      | none => Except.error "IndexError"
      | some a0 =>
        Except.ok ([JVal.jInt (Int.ofNat (index + 1)), a0, JVal.jStr ts] ++
                   (awic.drop 3).take 9 ++ [JVal.jStr mission])

/-- Python `str.replace` specialised to a single-character pattern:
replace every occurrence of `o` by `new`. -/
def replaceChar1 (o : Char) (new : List Char) : List Char → List Char
  | [] => []
  | c :: cs =>
    if c = o then new ++ replaceChar1 o new cs
    else c :: replaceChar1 o new cs

/-- Python `str.replace("%2C", new)`: replace non-overlapping occurrences of
the three-character pattern left to right. -/
def replacePct2C (new : List Char) : List Char → List Char
  | '%' :: '2' :: 'C' :: cs => new ++ replacePct2C new cs
  | c :: cs => c :: replacePct2C new cs
  | [] => []

/-- `geometry.replace(',', '%2C').replace(' ', '+')` (lines 171/176). -/
def encodeWKT (s : String) : String :=
  String.mk (replaceChar1 ' ' ['+'] (replaceChar1 ',' ['%', '2', 'C'] s.data))

/-- The inverse mapping named by the specification: `%2C` back to a comma,
`+` back to a space. -/
def decodeWKT (s : String) : String :=
  String.mk (replaceChar1 '+' [' '] (replacePct2C [','] s.data))

/-- `sub` is a leading segment of `l`. -/
def leadSeg : List Char → List Char → Bool
  | [], _ => true
  | _ :: _, [] => false
  | a :: as, b :: bs => a = b && leadSeg as bs

/-- `sub` occurs contiguously somewhere in `l`. -/
def containsSeg (sub : List Char) : List Char → Bool
  | [] => leadSeg sub []
  | c :: cs => leadSeg sub (c :: cs) || containsSeg sub cs

/-- `sub` occurs contiguously in `s` (Python's `sub in s`). -/
def strContainsSub (s sub : String) : Bool := containsSeg sub.data s.data

/-- The request object: output directory plus the three attributes set by the
`set_*` methods (`None` at construction). -/
structure AwicRequest where
  outputDir : Option String
  awic_http_request : Option String
  geometry_http_request : Option String
  awic_result_file : Option String

/-- Outcome of `build_request` on a request object: the updated object, a
`sys.exit()` (no code), or an uncaught `ValueError`; the last two carry the
object state at termination. -/
inductive BuildRes
  | ok (st : AwicRequest)
  | exit (st : AwicRequest)
  | raise (msg : String) (st : AwicRequest)

/-- `AwicRequest.URL_ROOT`. -/
def URL_ROOT : String := "https://wsi.land.copernicus.eu/awic/"

/-- `AwicRequest.AWIC_PROC`. -/
def AWIC_PROC : String := "get_awic"

/-- `AwicRequest.GEOMETRY_PROC`. -/
def GEOMETRY_PROC : String := "get_geometries"

/-- One `if date:` block of `build_request`: a falsy (absent or empty) date is
skipped, otherwise it is validated and appended to the URL parameters. -/
def addDateParam (params : List (String × String)) (key : String)
    (dOpt : Option String) : Except String (List (String × String)) :=
  match dOpt with
  | none => Except.ok params
  | some d =>
    if d = "" then Except.ok params
    else match validate_Rfc3339 d with
      | Except.ok v => Except.ok (params ++ [(key, v)])
      | Except.error m => Except.error m

/-- The two date blocks of `build_request` in source order: `startdate`
first, then `completiondate`; the first validation failure propagates. -/
def addDates (params : List (String × String))
    (startDate completionDate : Option String) :
    Except String (List (String × String)) :=
  match addDateParam params "startdate" startDate with
  | Except.error m => Except.error m
  | Except.ok params2 => addDateParam params2 "completiondate" completionDate

/-- `'&'.join(['%s=%s' % (key, value) for key, value in url_params.items()])`
over the insertion-ordered parameter list. -/
def joinParams (params : List (String × String)) : String :=
  String.intercalate "&" (params.map fun kv => kv.1 ++ "=" ++ kv.2)

/-- `AwicRequest.build_request` (lines 149–208): mutually exclusive spatial
filters, WKT percent-encoding, truthiness-guarded cloud ceiling and date
bounds, then the observation and geometry request targets. -/
def build_request (st : AwicRequest)
    (startDate completionDate geometrywkt_wgs84 geometrywkt_laea : Option String)
    (cloudCoverageMax : Option Int) : BuildRes :=
  match geometrywkt_wgs84, geometrywkt_laea with
  | some _, some _ => BuildRes.exit st
  | none, none => BuildRes.exit st
  | w, l =>
    let sel : String × String × String :=
      match w, l with
      | some g, _ => (encodeWKT g, "geometrywkt_wgs84", "wgs84")
      | _, some g => (encodeWKT g, "geometrywkt_laea", "laea")
      | _, _ => ("", "", "")
    let geometry := sel.1
    let keyName := sel.2.1
    let output_srid := sel.2.2
    let params0 : List (String × String) := [(keyName, geometry)]
    let params1 := params0 ++
      (match cloudCoverageMax with
       | some c => if c ≠ 0 then [("cloudcoveragemax", toString c)] else []
       | none => [])
    match addDates params1 startDate completionDate with
    | Except.error m => BuildRes.raise m st
    | Except.ok params3 =>
        if params3.isEmpty then BuildRes.exit st
        else BuildRes.ok { st with
          awic_http_request :=
            some (URL_ROOT ++ AWIC_PROC ++ "?" ++ joinParams params3),
          geometry_http_request :=
            some (URL_ROOT ++ GEOMETRY_PROC ++ "?" ++ keyName ++ "=" ++
                  geometry ++ "&output_srid=" ++ output_srid) }

/-- Outcome of the single `requests.get` call of a request function: the
request raised (`requests.RequestException`), or a response arrived with a
status code and a body (`none` when `response.json()` cannot parse it). -/
inductive HttpOutcome
  | fail
  | resp (status : Nat) (body : Option JVal)

/-- Result of `request_page`: a normal return, or an uncaught exception that
terminates the process. -/
inductive RPResult
  | ret (products : List (List JVal))
  | exn (name : String)

/-- Result of `request_geometry`: a normal return together with the files it
wrote, a `sys.exit(code)`, or an uncaught exception. -/
inductive RGRes
  | ret (geoms : List JVal) (files : List String)
  | exit (code : Option Nat)
  | exn (name : String)

/-- Iterating a JSON-decoded value with `enumerate`/`for`: an array yields its
elements, a dict its keys, a string its characters; other values raise
`TypeError`. -/
def pyIterItems : JVal → Except String (List JVal)
  | JVal.jArr xs => Except.ok xs
  | JVal.jObj fs => Except.ok (fs.map fun p => JVal.jStr p.1)
  | JVal.jStr s => Except.ok (s.data.map fun c => JVal.jStr (String.mk [c]))
  | _ => Except.error "TypeError"

/-- `format_awic_product(raw_awic, i)` on the subscripted raw value: a list
is used directly, a string subscripts to its one-character strings, a dict
raises `KeyError` on the integer subscripts, other values `TypeError`. -/
def formatRaw (raw : JVal) (i : Nat) : Except String (List JVal) :=
  match raw with
  | JVal.jArr xs => format_awic_product xs i
  | JVal.jStr s =>
    format_awic_product (s.data.map fun c => JVal.jStr (String.mk [c])) i
  | JVal.jObj _ => Except.error "KeyError"
  | _ => Except.error "TypeError"

/-- The `for i, item in enumerate(json_root)` loop of `request_page`: each
item must be a dict (`item.get` else `AttributeError`), a truthy `'j'` value
is formatted and collected. -/
def formatAll : List JVal → Nat → Except String (List (List JVal))
  | [], _ => Except.ok []
  | item :: rest, i =>
    match item with
    | JVal.jObj fields =>
      match jLookup fields "j" with
      | some raw =>
        if jTruthy raw then
          match formatRaw raw i with
          | Except.error e => Except.error e
          | Except.ok p =>
            match formatAll rest (i + 1) with
            | Except.error e => Except.error e
            | Except.ok ps => Except.ok (p :: ps)
        else formatAll rest (i + 1)
      | none => formatAll rest (i + 1)
    | _ => Except.error "AttributeError"

/-- `AwicRequest.request_page` (lines 342–377): any `RequestException`
(network failure or the `raise_for_status` of a 4xx/5xx status) and any
JSON parse failure return the empty list; a parsed body is enumerated and
formatted, exceptions raised there escape. -/
def request_page (outcome : HttpOutcome) : RPResult :=
  match outcome with
  | HttpOutcome.fail => RPResult.ret []
  | HttpOutcome.resp status body =>
    if 400 ≤ status ∧ status ≤ 599 then RPResult.ret []
    else match body with
      | none => RPResult.ret []
      | some j =>
        match pyIterItems j with
        | Except.error e => RPResult.exn e
        | Except.ok items =>
          match formatAll items 0 with
          | Except.error e => RPResult.exn e
          | Except.ok ps => RPResult.ret ps

/-- `isinstance(json_root, dict) and json_root.get('code') == '0100E'`. -/
def jIsErr0100E : JVal → Bool
  | JVal.jObj fs =>
    match jLookup fs "code" with
    | some (JVal.jStr s) => s == "0100E"
    | _ => false
  | _ => false

/-- The `for item in json_root` loop of `request_geometry`: collect the
truthy `'j'` values, `AttributeError` on a non-dict item. -/
def collectGeoms : List JVal → Except String (List JVal)
  | [] => Except.ok []
  | item :: rest =>
    match item with
    | JVal.jObj fields =>
      match jLookup fields "j" with
      | some geom =>
        if jTruthy geom then
          match collectGeoms rest with
          | Except.error e => Except.error e
          | Except.ok gs => Except.ok (geom :: gs)
        else collectGeoms rest
      | none => collectGeoms rest
    | _ => Except.error "AttributeError"

/-- `AwicRequest.request_geometry` (lines 282–339): `sys.exit(500)` on a
request exception, on a 414 status, or on a JSON parse failure;
`sys.exit(413)` on a `'code': '0100E'` object; otherwise the geometries are
collected and, for the CSV return modes, written to `geometries.csv` (a
missing or empty path is `sys.exit(500)`). -/
def request_geometry (outcome : HttpOutcome) (returnMode : String)
    (geometriesPath : Option String) : RGRes :=
  match outcome with
  | HttpOutcome.fail => RGRes.exit (some 500)
  | HttpOutcome.resp status body =>
    if status = 414 then RGRes.exit (some 500)
    else match body with
      | none => RGRes.exit (some 500)
      | some j =>
        if jIsErr0100E j then RGRes.exit (some 413)
        else match pyIterItems j with
          | Except.error e => RGRes.exn e
          | Except.ok items =>
            match collectGeoms items with
            | Except.error e => RGRes.exn e
            | Except.ok geoms =>
              if returnMode = "csv" ∨ returnMode = "csv_and_variable" then
                match geometriesPath with
                | none => RGRes.exit (some 500)
                | some p =>
                  if p = "" then RGRes.exit (some 500)
                  else RGRes.ret geoms [p ++ "/geometries.csv"]
              else RGRes.ret geoms []

/-- Result of `execute_request`: the returned `(geometries, awic_products)`
pair (each `None` or a value), a `sys.exit(code)`, or an uncaught
exception. -/
inductive ExecRes
  | ok (geoms : Option (List JVal)) (products : Option (List (List JVal)))
  | exit (code : Option Nat)
  | exn (name : String)

/-- `execute_request` outcome together with the files written before it
finished. -/
structure ExecResult where
  res : ExecRes
  files : List String

/-- `AwicRequest.execute_request` (lines 211–279): both request targets must
be configured, the geometry request runs first when asked for, then the
observation request; the CSV return modes write `awic.csv` and
`AWIC_MTD.xml` into the output directory. -/
def execute_request (st : AwicRequest) (returnMode : String)
    (request_geometries : Bool) (geomOut obsOut : HttpOutcome) : ExecResult :=
  match st.awic_http_request with
  | none => ⟨ExecRes.exit none, []⟩
  | some _ =>
    match st.geometry_http_request with
    | none => ⟨ExecRes.exit none, []⟩
    | some _ =>
      let geomStep : Except ExecResult (Option (List JVal) × List String) :=
        if request_geometries then
          match request_geometry geomOut returnMode st.outputDir with
          | RGRes.ret gs fs => Except.ok (some gs, fs)
          | RGRes.exit c => Except.error ⟨ExecRes.exit c, []⟩
          | RGRes.exn n => Except.error ⟨ExecRes.exn n, []⟩
        else Except.ok (none, [])
      match geomStep with
      | Except.error r => r
      | Except.ok (geometries, files0) =>
        match request_page obsOut with
        | RPResult.exn n => ⟨ExecRes.exn n, files0⟩
        | RPResult.ret awic_products =>
          if returnMode = "csv" ∨ returnMode = "csv_and_variable" then
            match st.outputDir with
            | none => ⟨ExecRes.exn "TypeError", files0⟩
            | some dir =>
              let files1 := files0 ++ [dir ++ "/awic.csv", dir ++ "/AWIC_MTD.xml"]
              if returnMode = "csv" then ⟨ExecRes.ok none none, files1⟩
              else ⟨ExecRes.ok geometries (some awic_products), files1⟩
          else ⟨ExecRes.ok geometries (some awic_products), []⟩

/-- Result of `download_awic_products`: a raised `ValueError`, a
`sys.exit(code)`, an uncaught exception, or the returned pair. -/
inductive DRes
  | valueError (msg : String)
  | exit (code : Option Nat)
  | exn (name : String)
  | ok (geoms : Option (List JVal)) (products : Option (List (List JVal)))

/-- `download_awic_products` outcome with the directories created and files
written along the way. -/
structure DownloadResult where
  res : DRes
  dirsMade : List String
  files : List String

/-- `download_awic_products` (lines 380–422): validate `returnMode` and
`outputDir`, construct the request object (which creates the output
directory when needed), build the two request targets, execute them.
`dirExists` is the pre-existing state of the output directory; `geomOut`
and `obsOut` are the outcomes of the two HTTP calls. -/
def download_awic_products (returnMode : String) (outputDir : Option String)
    (startDate completionDate geometrywkt_wgs84 geometrywkt_laea : Option String)
    (cloudCoverageMax : Option Int) (requestGeometries : Bool)
    (dirExists : Bool) (geomOut obsOut : HttpOutcome) : DownloadResult :=
  if ¬(returnMode = "csv" ∨ returnMode = "csv_and_variable" ∨
       returnMode = "variable") then
    ⟨DRes.valueError ("Invalid returnMode: " ++ returnMode), [], []⟩
  else if (returnMode = "csv" ∨ returnMode = "csv_and_variable") ∧
           outputDir = none then
    ⟨DRes.valueError
       "outputDir must be specified for csv and csv_and_variable return modes",
     [], []⟩
  else
    let dirsMade : List String :=
      match outputDir with
      | some d => if returnMode ≠ "variable" ∧ ¬dirExists then [d] else []
      | none => []
    let st : AwicRequest := ⟨outputDir, none, none, none⟩
    match build_request st startDate completionDate geometrywkt_wgs84
        geometrywkt_laea cloudCoverageMax with
    | BuildRes.exit _ => ⟨DRes.exit none, dirsMade, []⟩
    | BuildRes.raise m _ => ⟨DRes.valueError m, dirsMade, []⟩
    | BuildRes.ok st1 =>
      let er := execute_request st1 returnMode requestGeometries geomOut obsOut
      ⟨(match er.res with
        | ExecRes.ok g p => DRes.ok g p
        | ExecRes.exit c => DRes.exit c
        | ExecRes.exn n => DRes.exn n), dirsMade, er.files⟩

theorem dval_digitChar (k : Nat) (hk : k ≤ 9) : dval? (digitChar k) = some k := by
  interval_cases k <;> rfl

theorem dval_digitChar_mod (k : Nat) : dval? (digitChar (k % 10)) = some (k % 10) :=
  dval_digitChar (k % 10) (Nat.le_of_lt_succ (Nat.mod_lt k (by omega)))

theorem firstSome_cons_some (x : α) (xs : List α) (f : α → Option β) (b : β)
    (h : f x = some b) : firstSome (x :: xs) f = some b := by
  simp [firstSome, h]

theorem parse4Digits_pad4 (y : Nat) (rest : List Char) (hy : y ≤ 9999) :
    parse4Digits (pad4 y ++ rest) = some (y, rest) := by
  have hv : 1000 * (y / 1000 % 10) + 100 * (y / 100 % 10) +
      10 * (y / 10 % 10) + y % 10 = y := by omega
  simp only [pad4, List.cons_append, List.nil_append, parse4Digits,
    dval_digitChar_mod, hv]

theorem monthAlts_pad2 (m : Nat) (hm : 1 ≤ m) (hm2 : m ≤ 12) (rest : List Char) :
    ∃ tail, monthAlts (pad2 m ++ rest) = (m, rest) :: tail := by
  interval_cases m <;> exact ⟨_, rfl⟩

theorem dayAlts_pad2 (d : Nat) (hd : 1 ≤ d) (hd2 : d ≤ 31) (rest : List Char) :
    ∃ tail, dayAlts (pad2 d ++ rest) = (d, rest) :: tail := by
  interval_cases d <;> exact ⟨_, rfl⟩

theorem hourAlts_pad2 (h : Nat) (hh : h ≤ 23) (rest : List Char) :
    ∃ tail, hourAlts (pad2 h ++ rest) = (h, rest) :: tail := by
  interval_cases h <;> exact ⟨_, rfl⟩

theorem minuteAlts_pad2 (mi : Nat) (hmi : mi ≤ 59) (rest : List Char) :
    ∃ tail, minuteAlts (pad2 mi ++ rest) = (mi, rest) :: tail := by
  interval_cases mi <;> exact ⟨_, rfl⟩

theorem secondAlts_pad2 (s : Nat) (hs : s ≤ 59) (rest : List Char) :
    ∃ tail, secondAlts (pad2 s ++ rest) = (s, rest) :: tail := by
  interval_cases s <;> exact ⟨_, rfl⟩

theorem pad6_hms (h mi s : Nat) (hh : h ≤ 23) (hmi : mi ≤ 59) (hs : s ≤ 59) :
    pad6 (h * 10000 + mi * 100 + s) = pad2 h ++ pad2 mi ++ pad2 s := by
  have e1 : (h * 10000 + mi * 100 + s) / 100000 % 10 = h / 10 % 10 := by omega
  have e2 : (h * 10000 + mi * 100 + s) / 10000 % 10 = h % 10 := by omega
  have e3 : (h * 10000 + mi * 100 + s) / 1000 % 10 = mi / 10 % 10 := by omega
  have e4 : (h * 10000 + mi * 100 + s) / 100 % 10 = mi % 10 := by omega
  have e5 : (h * 10000 + mi * 100 + s) / 10 % 10 = s / 10 % 10 := by omega
  have e6 : (h * 10000 + mi * 100 + s) % 10 = s % 10 := by omega
  simp [pad6, pad2, e1, e2, e3, e4, e5, e6]

theorem py06d_ofNat (t : Nat) (ht : t < 1000000) :
    py06d (t : Int) = String.mk (pad6 t) := by
  unfold py06d
  rw [if_neg (by omega), if_pos (by simpa using ht)]
  simp

theorem daysInMonth_le_31 (y m : Nat) : daysInMonth y m ≤ 31 := by
  unfold daysInMonth
  split_ifs <;> omega

theorem firstSome_cons (x : α) (xs : List α) (f : α → Option β) :
    firstSome (x :: xs) f =
      (match f x with | some b => some b | none => firstSome xs f) := rfl

theorem matchYmdTHMS_pads (y m d h mi s : Nat)
    (hy2 : y ≤ 9999) (hm : 1 ≤ m) (hm2 : m ≤ 12) (hd : 1 ≤ d) (hd2 : d ≤ 31)
    (hh : h ≤ 23) (hmi : mi ≤ 59) (hs : s ≤ 59) :
    matchYmdTHMS (pad4 y ++ (pad2 m ++ (pad2 d ++ 'T' ::
        (pad2 h ++ (pad2 mi ++ pad2 s))))) = some ((y, m, d, h, mi, s), []) := by
  obtain ⟨tm, em⟩ :=
    monthAlts_pad2 m hm hm2 (pad2 d ++ 'T' :: (pad2 h ++ (pad2 mi ++ pad2 s)))
  obtain ⟨td, ed⟩ := dayAlts_pad2 d hd hd2 ('T' :: (pad2 h ++ (pad2 mi ++ pad2 s)))
  obtain ⟨th, eh⟩ := hourAlts_pad2 h hh (pad2 mi ++ pad2 s)
  obtain ⟨tmi, emi⟩ := minuteAlts_pad2 mi hmi (pad2 s)
  obtain ⟨ts, es⟩ := secondAlts_pad2 s hs []
  rw [List.append_nil] at es
  simp only [matchYmdTHMS, parse4Digits_pad4 _ _ hy2, em, ed, eh, emi, es,
    firstSome_cons]

/-- C4: for every valid (date, time) pair — a calendar date rendered as
`YYYYMMDD` and a time-of-day integer whose six-digit zero-padded form is a
valid `HHMMSS` — combining the two as `format_awic_product` does (the date
text, a literal `T`, then `f"{time:06d}"`) and parsing with
`strptime("%Y%m%dT%H%M%S")` recovers exactly the input components. -/
theorem awic_datetime_roundtrip (y m d h mi s : Nat)
    (hy : 1 ≤ y) (hy2 : y ≤ 9999) (hm : 1 ≤ m) (hm2 : m ≤ 12)
    (hd : 1 ≤ d) (hd2 : d ≤ daysInMonth y m)
    (hh : h ≤ 23) (hmi : mi ≤ 59) (hs : s ≤ 59) :
    strptimeYmdTHMS (String.mk (pad4 y ++ pad2 m ++ pad2 d) ++ "T" ++
        py06d ((h * 10000 + mi * 100 + s : Nat) : Int)) =
      some (y, m, d, h, mi, s) := by
  rw [py06d_ofNat _ (by omega), pad6_hms h mi s hh hmi hs]
  unfold strptimeYmdTHMS
  have hdata : (String.mk (pad4 y ++ pad2 m ++ pad2 d) ++ "T" ++
      String.mk (pad2 h ++ pad2 mi ++ pad2 s)).data =
      pad4 y ++ (pad2 m ++ (pad2 d ++ 'T' ::
        (pad2 h ++ (pad2 mi ++ pad2 s)))) := by
    simp [String.data_append, List.append_assoc]
  rw [hdata, matchYmdTHMS_pads y m d h mi s hy2 hm hm2 hd
    (le_trans hd2 (daysInMonth_le_31 y m)) hh hmi hs]
  exact if_pos ⟨rfl, hy, hd2, hs⟩

/-- Witness for C4 at 2025-01-15, 09:30:00. -/
theorem awic_datetime_roundtrip_witness :
    strptimeYmdTHMS (String.mk (pad4 2025 ++ pad2 1 ++ pad2 15) ++ "T" ++
        py06d ((9 * 10000 + 30 * 100 + 0 : Nat) : Int)) =
      some (2025, 1, 15, 9, 30, 0) :=
  awic_datetime_roundtrip 2025 1 15 9 30 0 (by decide) (by decide) (by decide)
    (by decide) (by decide) (by decide) (by decide) (by decide) (by decide)

/-- `True` exactly on the `ok` constructor. -/
def exceptOk : Except String α → Bool
  | Except.ok _ => true
  | Except.error _ => false

theorem missionLabelsGet_ok (v : Option JVal) (lbl : String)
    (h : missionLabelsGet v = Except.ok lbl) :
    lbl = (match v with
           | some (JVal.jInt n) =>
             if n = 0 then "Sentinel-1 Sentinel-2"
             else if n = 1 then "Sentinel-1"
             else if n = 2 then "Sentinel-2"
             else ""
           | _ => "") := by
  rcases v with _ | j
  · exact (Except.ok.inj h).symm
  · cases j with
    | jNull => exact (Except.ok.inj h).symm
    | jStr s => exact (Except.ok.inj h).symm
    | jArr xs => exact absurd h (by simp [missionLabelsGet])
    | jObj fs => exact absurd h (by simp [missionLabelsGet])
    | jInt n =>
      simp only [missionLabelsGet] at h
      split_ifs at h <;> simp_all

theorem getLast?_append_one (l : List α) (a : α) :
    (l ++ [a]).getLast? = some a := by
  induction l with
  | nil => rfl
  | cons x xs ih =>
    rw [List.cons_append, List.getLast?_cons, ih]
    simp

/-- C1 counterexample: on the raw array of the claim — whose time-of-day
field is the string `"093000"` — `format_awic_product` does not return the
claimed record; `f"{awic[2]:06d}"` rejects a string operand, so the call
raises `ValueError` instead. -/
theorem format_awic_product_string_time_counterexample :
    format_awic_product
      [JVal.jStr "12345", JVal.jStr "20250115", JVal.jStr "093000",
       JVal.jInt 10, JVal.jInt 20, JVal.jInt 30, JVal.jInt 15, JVal.jInt 5,
       JVal.jInt 20, JVal.jStr "A", JVal.jInt 40, JVal.jInt 60, JVal.jInt 1] 0
      = Except.error "ValueError: Invalid date/time in AWIC product" := rfl

/-- C1 amended: with the time-of-day field as the integer `93000` (which the
code zero-pads to `"093000"`), the raw array at index 0 formats to exactly
the claimed record — 1-based sequence index, ISO-8601 timestamp
`2025-01-15T09:30:00`, the nine middle fields passed through, and mission
code 1 translated to `"Sentinel-1"`. -/
theorem format_awic_product_int_time_scenario :
    format_awic_product
      [JVal.jStr "12345", JVal.jStr "20250115", JVal.jInt 93000,
       JVal.jInt 10, JVal.jInt 20, JVal.jInt 30, JVal.jInt 15, JVal.jInt 5,
       JVal.jInt 20, JVal.jStr "A", JVal.jInt 40, JVal.jInt 60, JVal.jInt 1] 0
      = Except.ok
      [JVal.jInt 1, JVal.jStr "12345", JVal.jStr "2025-01-15T09:30:00",
       JVal.jInt 10, JVal.jInt 20, JVal.jInt 30, JVal.jInt 15, JVal.jInt 5,
       JVal.jInt 20, JVal.jStr "A", JVal.jInt 40, JVal.jInt 60,
       JVal.jStr "Sentinel-1"] := rfl

/-- C2 counterexample: a 13-element raw array whose element at index 12 is a
(non-integer, non-string) decoded array does not yield an empty mission
label: `dict.get` raises `TypeError` on the unhashable key and the call
fails instead of returning a record. -/
theorem format_awic_product_unhashable_mission_counterexample :
    format_awic_product
      [JVal.jStr "12345", JVal.jStr "20250115", JVal.jInt 93000,
       JVal.jInt 10, JVal.jInt 20, JVal.jInt 30, JVal.jInt 15, JVal.jInt 5,
       JVal.jInt 20, JVal.jStr "A", JVal.jInt 40, JVal.jInt 60, JVal.jArr []] 0
      = Except.error "TypeError" := rfl

/-- C2 amended: the mission label of every formatted record follows the fixed
table — integer codes 0, 1, 2 map to `"Sentinel-1 Sentinel-2"`,
`"Sentinel-1"`, `"Sentinel-2"`, any other integer, string, or null value, or
an array shorter than 13 elements, gives the empty label — and the only
failures besides a bad date/time are a `TypeError` on an unhashable (array
or object) value at index 12: formatting succeeds exactly when the timestamp
derivation and the mission lookup both succeed. -/
theorem format_awic_product_mission_label_table (awic : List JVal) (index : Nat) :
    (exceptOk (format_awic_product awic index) =
      (exceptOk (awicTimestamp awic) &&
       exceptOk (missionLabelsGet (awic.get? 12)))) ∧
    (∀ rec, format_awic_product awic index = Except.ok rec →
      rec.getLast? = some (JVal.jStr
        (match awic.get? 12 with
         | some (JVal.jInt n) =>
           if n = 0 then "Sentinel-1 Sentinel-2"
           else if n = 1 then "Sentinel-1"
           else if n = 2 then "Sentinel-2"
           else ""
         | _ => ""))) := by
  rcases awic with _ | ⟨a0, _ | ⟨a1, _ | ⟨a2, rest⟩⟩⟩
  · exact ⟨rfl, by intro rec hrec; cases hrec⟩
  · exact ⟨rfl, by intro rec hrec; cases hrec⟩
  · exact ⟨rfl, by intro rec hrec; cases hrec⟩
  · constructor
    · cases ht : awicTimestamp (a0 :: a1 :: a2 :: rest) with
      | error e => simp [format_awic_product, ht, exceptOk]
      | ok ts =>
        cases hm : missionLabelsGet rest[9]? with
        | error e => simp [format_awic_product, ht, hm, exceptOk]
        | ok lbl => simp [format_awic_product, ht, hm, exceptOk]
    · intro rec hrec
      cases ht : awicTimestamp (a0 :: a1 :: a2 :: rest) with
      | error e => simp [format_awic_product, ht] at hrec
      | ok ts =>
        cases hm : missionLabelsGet rest[9]? with
        | error e => simp [format_awic_product, ht, hm] at hrec
        | ok lbl =>
          simp [format_awic_product, ht, hm] at hrec
          subst hrec
          rw [← List.cons_append, ← List.cons_append, ← List.cons_append,
            getLast?_append_one]
          have h12 : (a0 :: a1 :: a2 :: rest).get? 12 = rest[9]? := by simp
          rw [h12]
          rcases h9v : rest[9]? with _ | j
          · rw [h9v] at hm
            simp_all [missionLabelsGet]
          · rw [h9v] at hm
            cases j with
            | jNull => simp_all [missionLabelsGet]
            | jStr s => simp_all [missionLabelsGet]
            | jArr xs => simp [missionLabelsGet] at hm
            | jObj fs => simp [missionLabelsGet] at hm
            | jInt n =>
              simp only [missionLabelsGet] at hm
              show some (JVal.jStr lbl) = some (JVal.jStr
                (if n = 0 then "Sentinel-1 Sentinel-2"
                 else if n = 1 then "Sentinel-1"
                 else if n = 2 then "Sentinel-2" else ""))
              split_ifs at hm ⊢ <;> simp_all

/-- Witness for C2 at the concrete scenario array (mission code 1). -/
theorem format_awic_product_mission_label_table_witness :
    ([JVal.jInt 1, JVal.jStr "12345", JVal.jStr "2025-01-15T09:30:00",
      JVal.jInt 10, JVal.jInt 20, JVal.jInt 30, JVal.jInt 15, JVal.jInt 5,
      JVal.jInt 20, JVal.jStr "A", JVal.jInt 40, JVal.jInt 60,
      JVal.jStr "Sentinel-1"] : List JVal).getLast? =
      some (JVal.jStr
        (match ([JVal.jStr "12345", JVal.jStr "20250115", JVal.jInt 93000,
                 JVal.jInt 10, JVal.jInt 20, JVal.jInt 30, JVal.jInt 15,
                 JVal.jInt 5, JVal.jInt 20, JVal.jStr "A", JVal.jInt 40,
                 JVal.jInt 60, JVal.jInt 1] : List JVal).get? 12 with
         | some (JVal.jInt n) =>
           if n = 0 then "Sentinel-1 Sentinel-2"
           else if n = 1 then "Sentinel-1"
           else if n = 2 then "Sentinel-2"
           else ""
         | _ => "")) :=
  (format_awic_product_mission_label_table
    [JVal.jStr "12345", JVal.jStr "20250115", JVal.jInt 93000,
     JVal.jInt 10, JVal.jInt 20, JVal.jInt 30, JVal.jInt 15, JVal.jInt 5,
     JVal.jInt 20, JVal.jStr "A", JVal.jInt 40, JVal.jInt 60, JVal.jInt 1]
    0).2 _ rfl

/-- `True` exactly on the non-`ok` constructors: the run terminated
(`sys.exit` or an uncaught exception) before producing request targets. -/
def buildFailed : BuildRes → Bool
  | BuildRes.ok _ => false
  | BuildRes.exit _ => true
  | BuildRes.raise _ _ => true

/-- C3 counterexample: for start date `2025-01-15`, completion date
`2025-01-25` and the WGS84 filter `POINT(22.457940 49.367854)`,
`build_request` succeeds, but the observation query does not contain the
claimed substring with percent-encoded parentheses: the code encodes only
commas and spaces, so `(` and `)` stay literal. -/
theorem build_request_query_encoding_counterexample :
    build_request ⟨none, none, none, none⟩ (some "2025-01-15")
        (some "2025-01-25") (some "POINT(22.457940 49.367854)") none none =
      BuildRes.ok ⟨none,
        some "https://wsi.land.copernicus.eu/awic/get_awic?geometrywkt_wgs84=POINT(22.457940+49.367854)&startdate=2025-01-15&completiondate=2025-01-25",
        some "https://wsi.land.copernicus.eu/awic/get_geometries?geometrywkt_wgs84=POINT(22.457940+49.367854)&output_srid=wgs84",
        none⟩ ∧
    strContainsSub
      "https://wsi.land.copernicus.eu/awic/get_awic?geometrywkt_wgs84=POINT(22.457940+49.367854)&startdate=2025-01-15&completiondate=2025-01-25"
      "geometrywkt_wgs84=POINT%2822.457940+49.367854%29&startdate=2025-01-15&completiondate=2025-01-25"
      = false :=
  ⟨rfl, rfl⟩

/-- C3 amended: the same inputs produce an observation query containing
`geometrywkt_wgs84=POINT(22.457940+49.367854)&startdate=2025-01-15&completiondate=2025-01-25`
(space encoded as `+`, parentheses literal). -/
theorem build_request_query_literal_scenario :
    build_request ⟨none, none, none, none⟩ (some "2025-01-15")
        (some "2025-01-25") (some "POINT(22.457940 49.367854)") none none =
      BuildRes.ok ⟨none,
        some "https://wsi.land.copernicus.eu/awic/get_awic?geometrywkt_wgs84=POINT(22.457940+49.367854)&startdate=2025-01-15&completiondate=2025-01-25",
        some "https://wsi.land.copernicus.eu/awic/get_geometries?geometrywkt_wgs84=POINT(22.457940+49.367854)&output_srid=wgs84",
        none⟩ ∧
    strContainsSub
      "https://wsi.land.copernicus.eu/awic/get_awic?geometrywkt_wgs84=POINT(22.457940+49.367854)&startdate=2025-01-15&completiondate=2025-01-25"
      "geometrywkt_wgs84=POINT(22.457940+49.367854)&startdate=2025-01-15&completiondate=2025-01-25"
      = true :=
  ⟨rfl, rfl⟩

/-- C5: whenever both spatial filters are supplied, or neither is,
`build_request` terminates via `sys.exit` with the request object unchanged:
neither the observation target nor the geometry target is set. -/
theorem build_request_geometry_exclusive_exit (st : AwicRequest)
    (sd cd w l : Option String) (cc : Option Int)
    (h : (w ≠ none ∧ l ≠ none) ∨ (w = none ∧ l = none)) :
    build_request st sd cd w l cc = BuildRes.exit st := by
  rcases h with ⟨hw, hl⟩ | ⟨hw, hl⟩
  · rcases w with _ | gw
    · exact absurd rfl hw
    · rcases l with _ | gl
      · exact absurd rfl hl
      · rfl
  · subst hw; subst hl; rfl

/-- Witness for C5 with neither filter supplied. -/
theorem build_request_geometry_exclusive_exit_witness :
    build_request ⟨none, none, none, none⟩ none none none none none =
      BuildRes.exit ⟨none, none, none, none⟩ :=
  build_request_geometry_exclusive_exit ⟨none, none, none, none⟩
    none none none none none (Or.inr ⟨rfl, rfl⟩)

/-- C7 counterexample: the empty string is a supplied date that does not
match `YYYY-MM-DD` (the code's own validator rejects it), yet
`build_request` does not fail: the `if startDate:` truthiness guard skips
the empty string and the request targets are produced without it. -/
theorem build_request_empty_date_counterexample :
    validate_Rfc3339 "" =
      Except.error "Incorrect date format, should be YYYY-MM-DD" ∧
    build_request ⟨none, none, none, none⟩ (some "") none
        (some "POINT(22.457940 49.367854)") none none =
      BuildRes.ok ⟨none,
        some "https://wsi.land.copernicus.eu/awic/get_awic?geometrywkt_wgs84=POINT(22.457940+49.367854)",
        some "https://wsi.land.copernicus.eu/awic/get_geometries?geometrywkt_wgs84=POINT(22.457940+49.367854)&output_srid=wgs84",
        none⟩ :=
  ⟨rfl, rfl⟩

theorem addDates_fail (p : List (String × String)) (sd cd : Option String)
    (s : String) (hs : s ≠ "")
    (hbad : exceptOk (validate_Rfc3339 s) = false)
    (hsup : sd = some s ∨ cd = some s) :
    ∃ m, addDates p sd cd = Except.error m := by
  obtain ⟨m, hv⟩ : ∃ m, validate_Rfc3339 s = Except.error m := by
    cases hv : validate_Rfc3339 s with
    | ok v => rw [hv] at hbad; exact absurd hbad (by simp [exceptOk])
    | error m => exact ⟨m, rfl⟩
  have haddE : ∀ (q : List (String × String)) (k : String),
      addDateParam q k (some s) = Except.error m := by
    intro q k
    simp [addDateParam, hs, hv]
  rcases hsup with hsd | hcd
  · subst hsd
    exact ⟨m, by simp [addDates, haddE]⟩
  · subst hcd
    cases h1 : addDateParam p "startdate" sd with
    | error m1 => exact ⟨m1, by simp [addDates, h1]⟩
    | ok p2 => exact ⟨m, by simp [addDates, h1, haddE]⟩

/-- C7 amended: a supplied non-empty date string rejected by the `strptime`
`%Y-%m-%d` validation makes `build_request` fail (terminate), whether it was
passed as the start or the completion date.  (The empty string is skipped by
a truthiness guard, and the pattern also accepts one-digit months and days,
so only the validator's own notion of a malformed date forces failure.) -/
theorem build_request_invalid_date_fails (st : AwicRequest) (s : String)
    (sd cd w l : Option String) (cc : Option Int)
    (hs : s ≠ "") (hbad : exceptOk (validate_Rfc3339 s) = false)
    (hsup : sd = some s ∨ cd = some s) :
    buildFailed (build_request st sd cd w l cc) = true := by
  have hne : ∀ (p q : List (String × String)),
      addDates p sd cd ≠ Except.ok q := by
    intro p q h
    obtain ⟨m, hE⟩ := addDates_fail p sd cd s hs hbad hsup
    rw [hE] at h
    cases h
  rcases w with _ | gw <;> rcases l with _ | gl
  · rfl
  · simp only [build_request]
    split
    · rfl
    · rename_i params3 heq
      exact absurd heq (hne _ _)
  · simp only [build_request]
    split
    · rfl
    · rename_i params3 heq
      exact absurd heq (hne _ _)
  · rfl

/-- Witness for C7 with a slash-separated date as start date. -/
theorem build_request_invalid_date_fails_witness :
    buildFailed (build_request ⟨none, none, none, none⟩ (some "2025/01/15")
      none (some "POINT(22.457940 49.367854)") none none) = true :=
  build_request_invalid_date_fails ⟨none, none, none, none⟩ "2025/01/15"
    (some "2025/01/15") none (some "POINT(22.457940 49.367854)") none none
    (by decide) (by decide) (Or.inl rfl)

/-- The per-character image of the WKT encoding named by the specification: a
comma becomes `%2C`, a space becomes `+`, every other character is unchanged
in place. -/
def encCharsWKT : List Char → List Char
  | [] => []
  | c :: cs =>
    (if c = ',' then ['%', '2', 'C'] else if c = ' ' then ['+'] else [c]) ++
    encCharsWKT cs

/-- The per-character image of the first decoding stage: after `%2C` has been
restored to a comma, only spaces remain mapped (to `+`). -/
def spaceCharsWKT : List Char → List Char
  | [] => []
  | c :: cs => (if c = ' ' then ['+'] else [c]) ++ spaceCharsWKT cs

theorem replacePct2C_match (new cs : List Char) :
    replacePct2C new ('%' :: '2' :: 'C' :: cs) = new ++ replacePct2C new cs := by
  simp [replacePct2C]

theorem replacePct2C_ne (new : List Char) (c : Char) (cs : List Char)
    (h : c ≠ '%') :
    replacePct2C new (c :: cs) = c :: replacePct2C new cs := by
  conv_lhs => rw [replacePct2C.eq_def]
  split
  · rename_i cs' heq
    injection heq with hx hy
    exact absurd hx h
  · rename_i c' cs' heq
    injection heq with hx hy
    rw [← hx, ← hy]
  · rename_i heq
    simp at heq

theorem replacePct2C_percent (new : List Char) (cs : List Char)
    (h : ∀ t, cs ≠ '2' :: 'C' :: t) :
    replacePct2C new ('%' :: cs) = '%' :: replacePct2C new cs := by
  conv_lhs => rw [replacePct2C.eq_def]
  split
  · rename_i cs' heq
    injection heq with hx hy
    exact absurd hy (h cs')
  · rename_i c' cs' heq
    injection heq with hx hy
    rw [← hx, ← hy]
  · rename_i heq
    simp at heq

theorem encChars_eq (l : List Char) :
    replaceChar1 ' ' ['+'] (replaceChar1 ',' ['%', '2', 'C'] l) =
      encCharsWKT l := by
  induction l with
  | nil => rfl
  | cons c cs ih =>
    by_cases h1 : c = ','
    · subst h1
      simp [replaceChar1, encCharsWKT, ih]
    · by_cases h2 : c = ' '
      · subst h2
        simp [replaceChar1, encCharsWKT, ih]
      · simp [replaceChar1, encCharsWKT, h1, h2, ih]

theorem encChars_not_2C (cs : List Char)
    (h : leadSeg ['2', 'C'] cs = false) (t : List Char) :
    encCharsWKT cs ≠ '2' :: 'C' :: t := by
  intro hEq
  cases cs with
  | nil => simp [encCharsWKT] at hEq
  | cons c2 cs2 =>
    by_cases hc2 : c2 = ','
    · subst hc2; simp [encCharsWKT] at hEq
    · by_cases hsp2 : c2 = ' '
      · subst hsp2; simp [encCharsWKT] at hEq
      · simp only [encCharsWKT, if_neg hc2, if_neg hsp2,
          List.singleton_append, List.cons.injEq] at hEq
        obtain ⟨hh2, htl⟩ := hEq
        subst hh2
        have hl : leadSeg ['C'] cs2 = false := by simpa [leadSeg] using h
        cases cs2 with
        | nil => simp [encCharsWKT] at htl
        | cons c3 cs3 =>
          by_cases h3 : c3 = ','
          · subst h3; simp [encCharsWKT] at htl
          · by_cases h3' : c3 = ' '
            · subst h3'; simp [encCharsWKT] at htl
            · simp only [encCharsWKT, if_neg h3, if_neg h3',
                List.singleton_append, List.cons.injEq] at htl
              rw [htl.1] at h3 h3' hl
              simp [leadSeg] at hl

theorem decode_pct2C (l : List Char)
    (h2 : containsSeg ['%', '2', 'C'] l = false) :
    replacePct2C [','] (encCharsWKT l) = spaceCharsWKT l := by
  induction l with
  | nil => rfl
  | cons c cs ih =>
    have hsplit : leadSeg ['%', '2', 'C'] (c :: cs) = false ∧
        containsSeg ['%', '2', 'C'] cs = false := by
      simpa [containsSeg, Bool.or_eq_false_iff] using h2
    have ihc := ih hsplit.2
    by_cases h1 : c = ','
    · subst h1
      show replacePct2C [','] ('%' :: '2' :: 'C' :: encCharsWKT cs) =
        ',' :: spaceCharsWKT cs
      rw [replacePct2C_match, ihc]
      rfl
    · by_cases hsp : c = ' '
      · subst hsp
        show replacePct2C [','] ('+' :: encCharsWKT cs) =
          '+' :: spaceCharsWKT cs
        rw [replacePct2C_ne _ '+' _ (by decide), ihc]
      · by_cases hpc : c = '%'
        · subst hpc
          have hlead : leadSeg ['2', 'C'] cs = false := by
            simpa [leadSeg] using hsplit.1
          simp only [encCharsWKT, spaceCharsWKT, if_neg h1, if_neg hsp,
            List.singleton_append]
          rw [replacePct2C_percent _ _ (encChars_not_2C cs hlead), ihc]
        · simp only [encCharsWKT, spaceCharsWKT, if_neg h1, if_neg hsp,
            List.singleton_append]
          rw [replacePct2C_ne _ c _ hpc, ihc]

theorem decode_plus (l : List Char) (h1 : '+' ∉ l) :
    replaceChar1 '+' [' '] (spaceCharsWKT l) = l := by
  induction l with
  | nil => rfl
  | cons c cs ih =>
    have hc : c ≠ '+' := fun hc => h1 (hc ▸ List.mem_cons_self c cs)
    have hcs : '+' ∉ cs := fun hm => h1 (List.mem_cons_of_mem c hm)
    by_cases hsp : c = ' '
    · subst hsp; simp [spaceCharsWKT, replaceChar1, ih hcs]
    · simp [spaceCharsWKT, replaceChar1, hsp, hc, ih hcs]

/-- C6 counterexample: the WKT string `POINT(1e+10 2)` (a point with a
scientific-notation coordinate) does not survive the encode/decode round
trip: its literal `+` is decoded into a space, so decoding the encoded WKT
does not yield the original. -/
theorem wkt_encode_decode_counterexample :
    decodeWKT (encodeWKT "POINT(1e+10 2)") ≠ "POINT(1e+10 2)" := by decide

/-- C6 amended: for every WKT string containing no literal `+` and no literal
`%2C` substring, decoding the encoded WKT (mapping `%2C` back to `,` and `+`
back to a space) restores the original; and unconditionally, commas and
spaces are the only characters the encoding transforms — every other
character passes through unchanged, in place. -/
theorem wkt_encode_decode_roundtrip (s : String)
    (h1 : '+' ∉ s.data) (h2 : strContainsSub s "%2C" = false) :
    decodeWKT (encodeWKT s) = s ∧ (encodeWKT s).data = encCharsWKT s.data := by
  obtain ⟨l⟩ := s
  have h1' : '+' ∉ l := h1
  have h2' : containsSeg ['%', '2', 'C'] l = false := h2
  have henc : (encodeWKT (String.mk l)).data = encCharsWKT l := encChars_eq l
  refine ⟨?_, henc⟩
  show String.mk (replaceChar1 '+' [' ']
    (replacePct2C [','] (encodeWKT (String.mk l)).data)) = String.mk l
  rw [henc, decode_pct2C l h2', decode_plus l h1']

/-- Witness for C6 at the WGS84 point filter of the scenario. -/
theorem wkt_encode_decode_roundtrip_witness :
    decodeWKT (encodeWKT "POINT(22.457940 49.367854)") =
      "POINT(22.457940 49.367854)" ∧
    (encodeWKT "POINT(22.457940 49.367854)").data =
      encCharsWKT ("POINT(22.457940 49.367854)" : String).data :=
  wkt_encode_decode_roundtrip "POINT(22.457940 49.367854)"
    (by decide) (by decide)

/-- C8 counterexample: a non-2xx observation-side failure condition does not
terminate the process when it hits the geometry call — `request_geometry`
never checks the status code except for 414, so a 500 response with a
parseable JSON body returns normally instead of exiting. -/
theorem request_geometry_non2xx_counterexample :
    request_geometry (HttpOutcome.resp 500 (some (JVal.jArr []))) "variable"
      (some "out") = RGRes.ret [] [] := rfl

/-- C8 amended: on the observation call, a request exception, any 4xx/5xx
status (via `raise_for_status`), and an unparseable JSON body each yield the
empty result list (the run continues); on the geometry call, a request
exception, the 414 status, and an unparseable JSON body each terminate via
`sys.exit(500)` — but other non-2xx statuses are not themselves detected
there. -/
theorem http_failure_handling (status : Nat) (body : Option JVal)
    (returnMode : String) (geometriesPath : Option String)
    (h4 : 400 ≤ status) (h5 : status ≤ 599) :
    request_page HttpOutcome.fail = RPResult.ret [] ∧
    request_page (HttpOutcome.resp status body) = RPResult.ret [] ∧
    (∀ s2 : Nat, request_page (HttpOutcome.resp s2 none) = RPResult.ret []) ∧
    request_geometry HttpOutcome.fail returnMode geometriesPath =
      RGRes.exit (some 500) ∧
    request_geometry (HttpOutcome.resp 414 body) returnMode geometriesPath =
      RGRes.exit (some 500) ∧
    (∀ s2 : Nat, request_geometry (HttpOutcome.resp s2 none) returnMode
      geometriesPath = RGRes.exit (some 500)) := by
  refine ⟨rfl, ?_, ?_, rfl, rfl, ?_⟩
  · simp [request_page, h4, h5]
  · intro s2
    by_cases h : 400 ≤ s2 ∧ s2 ≤ 599 <;> simp [request_page, h]
  · intro s2
    by_cases h : s2 = 414 <;> simp [request_geometry, h]

/-- Witness for C8 at a 500 observation response and 414 geometry status. -/
theorem http_failure_handling_witness :
    request_page (HttpOutcome.resp 500 (some (JVal.jArr []))) =
      RPResult.ret [] ∧
    request_geometry (HttpOutcome.resp 414 (some (JVal.jArr []))) "csv" none =
      RGRes.exit (some 500) :=
  ⟨(http_failure_handling 500 (some (JVal.jArr [])) "csv" none
      (by decide) (by decide)).2.1,
   (http_failure_handling 500 (some (JVal.jArr [])) "csv" none
      (by decide) (by decide)).2.2.2.2.1⟩

/-- C9: an HTTP-successful observation response whose body is the JSON object
`{"code": "0100E", "message": ...}` terminates the process — iterating the
dict yields its string keys and `item.get` raises `AttributeError`, an
uncaught exception (non-zero interpreter exit, distinct from every
`sys.exit` path of the program) — and no observation output file is
written. -/
theorem request_page_error_object_terminates :
    execute_request ⟨some "out", some "u1", some "u2", none⟩ "csv" false
      HttpOutcome.fail
      (HttpOutcome.resp 200 (some (JVal.jObj
        [("code", JVal.jStr "0100E"), ("message", JVal.jStr "error")]))) =
      ⟨ExecRes.exn "AttributeError", []⟩ := rfl

/-- C10: `download_awic_products` raises `ValueError` whenever `returnMode`
is not one of the three accepted modes, and also whenever a CSV mode is
requested without an output directory — before creating any directory,
writing any file, or letting the result depend on either HTTP outcome. -/
theorem download_awic_products_validation (returnMode : String)
    (outputDir startDate completionDate w l : Option String)
    (cloudCoverageMax : Option Int) (requestGeometries dirExists : Bool)
    (geomOut obsOut : HttpOutcome)
    (h : ¬(returnMode = "csv" ∨ returnMode = "csv_and_variable" ∨
           returnMode = "variable") ∨
         ((returnMode = "csv" ∨ returnMode = "csv_and_variable") ∧
          outputDir = none)) :
    download_awic_products returnMode outputDir startDate completionDate
      w l cloudCoverageMax requestGeometries dirExists geomOut obsOut =
      ⟨DRes.valueError
        (if returnMode = "csv" ∨ returnMode = "csv_and_variable" ∨
            returnMode = "variable"
         then "outputDir must be specified for csv and csv_and_variable return modes"
         else "Invalid returnMode: " ++ returnMode), [], []⟩ := by
  rcases h with h | ⟨hmode, hdir⟩
  · simp [download_awic_products, h]
  · have hvalid : returnMode = "csv" ∨ returnMode = "csv_and_variable" ∨
        returnMode = "variable" := by tauto
    simp [download_awic_products, hvalid, hmode, hdir]

/-- Witness for C10 at an unrecognized return mode. -/
theorem download_awic_products_validation_witness :
    download_awic_products "bogus" none none none none none none false false
      HttpOutcome.fail HttpOutcome.fail =
      ⟨DRes.valueError
        (if ("bogus" : String) = "csv" ∨ ("bogus" : String) = "csv_and_variable" ∨
            ("bogus" : String) = "variable"
         then "outputDir must be specified for csv and csv_and_variable return modes"
         else "Invalid returnMode: " ++ "bogus"), [], []⟩ :=
  download_awic_products_validation "bogus" none none none none none none
    false false HttpOutcome.fail HttpOutcome.fail (Or.inl (by decide))
